import Mathlib

/-! Shallow embedding of the NIFTY 50 breakout bot
    (src/nifty50-breakout-bot/src/bot.js; the file holds two copies of the
    engine separated by a document marker: the primary copy at lines 1-591
    and a second copy at lines 592-859, plus src/utils.js).
    JS numbers are modelled as rationals (the candle aggregator and all
    comparisons use only max/min/compare/assign, which are exact on finite
    doubles); wall-clock instants are milliseconds of the trading day, so
    the string comparison of hhmmss() against a CONFIG cutoff is the
    numeric comparison of now / 1000 against the cutoff in seconds. -/

/-- Association-list lookup modelling JS object / Map indexing by a string
key (first matching key wins; all writes keep keys unique). -/
def getOpt {α : Type} : List (String × α) → String → Option α
  | [], _ => none
  | e :: rest, k => if e.1 = k then some e.2 else getOpt rest k

/-- Association-list write modelling JS `obj[k] = v` / `Map.set`: replaces
the binding in place when the key is present, otherwise appends it. -/
def setK {α : Type} : List (String × α) → String → α → List (String × α)
  | [], k, v => [(k, v)]
  | e :: rest, k, v => if e.1 = k then (k, v) :: rest else e :: setK rest k v

/-- JS `Set.add` on a set kept in insertion order. -/
def insertSet (l : List String) (a : String) : List String :=
  if a ∈ l then l else l ++ [a]

/-- CONFIG.RISK_PER_TRADE (bot.js:7). -/
def CONFIG_RISK_PER_TRADE : ℚ := 100

/-- CONFIG.VOLATILITY_THRESH (bot.js:8). -/
def CONFIG_VOLATILITY_THRESH : ℚ := 1

/-- CONFIG.FIRST_CANDLE_END, the string '09:20:00' as seconds of day (bot.js:10). -/
def CONFIG_FIRST_CANDLE_END : ℕ := 9 * 3600 + 20 * 60

/-- CONFIG.ENTRY_CUTOFF, the string '12:00:00' as seconds of day (bot.js:11). -/
def CONFIG_ENTRY_CUTOFF : ℕ := 12 * 3600

/-- marketOpenTs of the qualification block (bot.js:304-306): the 09:15
bucket start, in milliseconds of day. -/
def marketOpenTs : ℕ := (9 * 60 + 15) * 60000

/-- firstCandleEndTs of the qualification block (bot.js:305-307): the 09:20
bucket start, in milliseconds of day. -/
def firstCandleEndTs : ℕ := (9 * 60 + 20) * 60000

/-- One minute candle `{ts, o, h, l, c}` (bot.js:288). -/
structure Candle where
  ts : ℕ
  o : ℚ
  h : ℚ
  l : ℚ
  c : ℚ
deriving DecidableEq

/-- The stored opening range `{hi, lo, volatility}` (bot.js:326). -/
structure Range where
  hi : ℚ
  lo : ℚ
  volatility : ℚ
deriving DecidableEq

/-- One PositionManager entry `{side, qty, avg, openQty}` (bot.js:26). -/
structure Position where
  side : String
  qty : ℚ
  avg : ℚ
  openQty : ℚ
deriving DecidableEq

/-- The PositionManager class state (bot.js:15-19). -/
structure PositionManager where
  positions : List (String × List Position)
  maxPerSide : ℕ
deriving DecidableEq

/-- Arguments of one `placeTrade(sym, dir, entry, sl)` invocation (bot.js:339/344). -/
structure Trade where
  sym : String
  dir : String
  entry : ℚ
  sl : ℚ
deriving DecidableEq

/-- The mutable fields of BreakoutBot driven by onTick (bot.js:43-47). -/
structure BotState where
  pm : PositionManager
  candles : List (String × List Candle)
  firstCandle : List (String × Range)
  qualified : List String
deriving DecidableEq

/-- PositionManager.canEnter (bot.js:20-23): open slots for (symbol, side)
are the recorded entries with that side and openQty > 0. -/
def PositionManager.canEnter (pm : PositionManager) (symbol side : String) : Bool :=
  decide ((((getOpt pm.positions symbol).getD []).filter
    (fun p => decide (p.side = side) && decide (0 < p.openQty))).length < pm.maxPerSide)

/-- PositionManager.add (bot.js:24-28): push `{side, qty, avg: price, openQty: qty}`. -/
def PositionManager.add (pm : PositionManager) (symbol side : String)
    (qty price : ℚ) : PositionManager :=
  let arr := (getOpt pm.positions symbol).getD []
  { pm with positions := setK pm.positions symbol (arr ++ [⟨side, qty, price, qty⟩]) }

/-- PositionManager.close (bot.js:29-32): zero openQty on every entry of the
given side; a missing symbol key is a no-op (the fresh array is discarded). -/
def PositionManager.close (pm : PositionManager) (symbol side : String) : PositionManager :=
  let upd := fun (e : String × List Position) =>
    if e.1 = symbol then
      (e.1, e.2.map (fun p => if p.side = side then { p with openQty := 0 } else p))
    else e
  { pm with positions := pm.positions.map upd }

/-- Math.max over a spread list (bot.js:319); only applied to the five-element
window, so the empty-list default is never reached there. -/
def listMax : List ℚ → ℚ
  | [] => 0
  | x :: xs => xs.foldl max x

/-- Math.min over a spread list (bot.js:320); same reachability remark. -/
def listMin : List ℚ → ℚ
  | [] => 0
  | x :: xs => xs.foldl min x

/-- first5[0].o (bot.js:321); only applied to the five-element window. -/
def firstOpen : List Candle → ℚ
  | [] => 0
  | c :: _ => c.o

/-- Candle create/update part of onTick (bot.js:282-299): bucket the tick
time to the minute, then either push a fresh candle or fold the price into
the last candle with max/min/assign. -/
def updateCandles (s : BotState) (sym : String) (price : ℚ) (now : ℕ) : BotState :=
  let ts := now / 60000 * 60000
  let arr := (getOpt s.candles sym).getD []
  let arr2 :=
    match arr.getLast? with
    | none => arr ++ [⟨ts, price, price, price, price⟩]
    | some prev =>
      if prev.ts ≠ ts then
        arr ++ [⟨ts, price, price, price, price⟩]
      else
        arr.dropLast ++ [⟨prev.ts, prev.o, max prev.h price, min prev.l price, price⟩]
  { s with candles := setK s.candles sym arr2 }

/-- Opening-range qualification block of onTick, first copy (bot.js:302-331).
The returned option is the verdict the block logs at this invocation:
`some true` for the qualified log line, `some false` for the disqualified
one, `none` when no evaluation completes. The conjunct `firstOpen _ ≠ 0`
encodes that with op = 0 the JS quotient (hi-lo)/op is non-finite
(Infinity or NaN) and so fails the `< threshold` comparison. -/
def qualifyStep (s : BotState) (sym : String) (now : ℕ) : BotState × Option Bool :=
  if getOpt s.firstCandle sym = none ∧ CONFIG_FIRST_CANDLE_END ≤ now / 1000 then
    let arr := (getOpt s.candles sym).getD []
    let first5 := arr.filter (fun c => decide (marketOpenTs ≤ c.ts) && decide (c.ts < firstCandleEndTs))
    if first5.length = 5 then
      let hi := listMax (first5.map (fun c => c.h))
      let lo := listMin (first5.map (fun c => c.l))
      let op := firstOpen first5
      let v := (hi - lo) / op * 100
      if op ≠ 0 ∧ v < CONFIG_VOLATILITY_THRESH then
        ({ s with qualified := insertSet s.qualified sym,
                  firstCandle := setK s.firstCandle sym ⟨hi, lo, v⟩ }, some true)
      else (s, some false)
    else (s, none)
  else (s, none)

/-- Breakout detection block of onTick (bot.js:335-347): gated on membership
in `qualified` and hhmmss() < ENTRY_CUTOFF; each side fires when the price
crosses the stored boundary and canEnter admits it, calling
placeTrade(sym, dir, boundary, oppositeBoundary) and then pm.add with qty 0.
The `none` arm of the match is unreachable from reachable states (a symbol
is added to `qualified` only together with its `firstCandle` entry). -/
def breakoutStep (s : BotState) (sym : String) (price : ℚ) (now : ℕ) : BotState × List Trade :=
  if sym ∈ s.qualified ∧ now / 1000 < CONFIG_ENTRY_CUTOFF then
    match getOpt s.firstCandle sym with
    | some r =>
      let step1 : BotState × List Trade :=
        if r.hi < price ∧ s.pm.canEnter sym "LONG" = true then
          ({ s with pm := s.pm.add sym "LONG" 0 r.hi }, [⟨sym, "LONG", r.hi, r.lo⟩])
        else (s, [])
      if price < r.lo ∧ step1.1.pm.canEnter sym "SHORT" = true then
        ({ step1.1 with pm := step1.1.pm.add sym "SHORT" 0 r.lo },
          step1.2 ++ [⟨sym, "SHORT", r.lo, r.hi⟩])
      else step1
    | none => (s, [])
  else (s, [])

/-- onTick for a tick that resolved to a known symbol and a numeric price
(bot.js:282-347): candle aggregation, then qualification, then breakout.
Returns the new state, the placeTrade invocations, and the verdict logged
by the qualification block. -/
def onTick (s : BotState) (sym : String) (price : ℚ) (now : ℕ) :
    BotState × List Trade × Option Bool :=
  let s1 := updateCandles s sym price now
  let qv := qualifyStep s1 sym now
  let bt := breakoutStep qv.1 sym price now
  (bt.1, bt.2, qv.2)

/-- Fold a list of (symbol, price, now) ticks through onTick. -/
def runTicks (s : BotState) : List (String × ℚ × ℕ) → BotState
  | [] => s
  | t :: rest => runTicks (onTick s t.1 t.2.1 t.2.2).1 rest

/-- Initial BreakoutBot state (bot.js:41-51): empty maps, empty qualified
set, and `new PositionManager(1)`. -/
def initState : BotState := ⟨⟨[], 1⟩, [], [], []⟩

/-- Quantity computed by placeTrade (bot.js:411):
`Math.max(1, Math.floor(risk / Math.abs(entry - sl)))`. For entry = sl the
JS division by zero makes the result non-finite (Infinity for the positive
risk the bot uses), modelled as `none`. -/
def qtyOf (risk entry sl : ℚ) : Option ℤ :=
  if entry = sl then none else some (max 1 ⌊risk / |entry - sl|⌋)

/-- Target computed by placeTrade (bot.js:412):
`dir === 'LONG' ? entry + (entry - sl) : entry - (sl - entry)`. -/
def tgtOf (dir : String) (entry sl : ℚ) : ℚ :=
  if dir = "LONG" then entry + (entry - sl) else entry - (sl - entry)

/-- Rejection branch of placeTrade (bot.js:435-437): when the entry leg
comes back with stat ≠ Ok the code only logs `Order failed` — no
PositionManager mutation, no compensation of the slot added in onTick. -/
def placeTradeRejected (s : BotState) : BotState := s

/-- One entry of the broker position query used by squareOff (bot.js:544-548);
netqty arrives as a numeric string and is read through Number(...). -/
structure BrokerPosition where
  netqty : ℤ
  exch : String
  tsym : String
deriving DecidableEq

/-- One flattening market order submitted by squareOff (bot.js:546-549):
side 'S' sells a positive net quantity, 'B' buys back a negative one. -/
structure FlattenOrder where
  side : String
  qty : ℕ
  exch : String
  tsym : String
deriving DecidableEq

/-- The loop body of squareOff (bot.js:543-553): for each entry with
non-zero netqty submit one market order on the opposite side for
Math.abs(netqty); zero entries are skipped. -/
def squareOffOrders : List BrokerPosition → List FlattenOrder
  | [] => []
  | p :: ps =>
    if p.netqty ≠ 0 then
      ⟨if 0 < p.netqty then "S" else "B", p.netqty.natAbs, p.exch, p.tsym⟩ :: squareOffOrders ps
    else
      squareOffOrders ps

/-- Window selection of the SECOND engine copy (bot.js:751): candles with
`c.ts < ts + 1 && c.ts >= ts - 4 * 60000` where ts is the CURRENT tick's
bucket; the subtraction is on JS numbers, hence over ℤ. -/
def first5Copy2 (arr : List Candle) (ts : ℕ) : List Candle :=
  arr.filter (fun c => decide ((c.ts : ℤ) < (ts : ℤ) + 1) &&
    decide ((ts : ℤ) - 4 * 60000 ≤ (c.ts : ℤ)))

/-- Opening range `{hi, lo}` stored by the second copy (bot.js:759). -/
structure RangeCopy2 where
  hi : ℚ
  lo : ℚ
deriving DecidableEq

/-- Qualification block of the second engine copy (bot.js:750-763), acting
on one symbol's candle list and its firstCandle entry: returns the entry
after this invocation. The sliding window is anchored at the current tick's
bucket, and only a qualifying verdict stores anything. -/
def qualifyStepCopy2 (arr : List Candle) (fc : Option RangeCopy2) (now : ℕ) :
    Option RangeCopy2 :=
  let ts := now / 60000 * 60000
  if fc = none ∧ CONFIG_FIRST_CANDLE_END ≤ now / 1000 then
    let first5 := first5Copy2 arr ts
    if first5.length = 5 then
      let hi := listMax (first5.map (fun c => c.h))
      let lo := listMin (first5.map (fun c => c.l))
      let op := firstOpen first5
      if op ≠ 0 ∧ (hi - lo) / op * 100 < CONFIG_VOLATILITY_THRESH then
        some ⟨hi, lo⟩
      else fc
    else fc
  else fc

/-- Math.max where either operand may be NaN (modelled `none`): any NaN
operand makes the result NaN. -/
def jsMax : Option ℚ → Option ℚ → Option ℚ
  | some a, some b => some (max a b)
  | _, _ => none

/-- Math.min with the same NaN propagation. -/
def jsMin : Option ℚ → Option ℚ → Option ℚ
  | some a, some b => some (min a b)
  | _, _ => none

/-- Candle whose fields may hold NaN (`none`), as produced when
`parseFloat(tick.lp || tick.c)` is not a finite number (bot.js:282-299
performs no validity check on the parsed price). -/
structure JSCandle where
  ts : ℕ
  o : Option ℚ
  h : Option ℚ
  l : Option ℚ
  c : Option ℚ
deriving DecidableEq

/-- tokenToSymbol (bot.js:404-407): first symbol whose stored token equals
the tick's token, else null. -/
def tokenToSymbol (tokens : List (String × ℕ)) (tk : ℕ) : Option String :=
  (tokens.find? (fun e => decide (e.2 = tk))).map (fun e => e.1)

/-- Tick ingress of onTick (bot.js:262-299): the unknown-token guard and the
candle create/update, with the parsed price as an Option (none models a
price whose parseFloat is NaN). Returns the candle map after the tick. -/
def ingestTick (tokens : List (String × ℕ)) (candles : List (String × List JSCandle))
    (tk : ℕ) (lp : Option ℚ) (now : ℕ) : List (String × List JSCandle) :=
  match tokenToSymbol tokens tk with
  | none => candles
  | some sym =>
    let ts := now / 60000 * 60000
    let arr := (getOpt candles sym).getD []
    let arr2 :=
      match arr.getLast? with
      | none => arr ++ [⟨ts, lp, lp, lp, lp⟩]
      | some prev =>
        if prev.ts ≠ ts then
          arr ++ [⟨ts, lp, lp, lp, lp⟩]
        else
          arr.dropLast ++ [⟨prev.ts, prev.o, jsMax prev.h lp, jsMin prev.l lp, lp⟩]
    setK candles sym arr2

/-- Ticks driving symbol X through qualification with range hi = 100,
lo = 99.5 (volatility 0.5 percent, below the 1 percent threshold): five
opening-window candles 09:15-09:19 and the 09:20:05 tick that triggers the
evaluation. -/
def qualTicks : List (String × ℚ × ℕ) :=
  [("X", 100, 33300000), ("X", 199/2, 33360000), ("X", 100, 33420000),
   ("X", 100, 33480000), ("X", 100, 33540000), ("X", 100, 33605000)]

/-- State of the bot after qualTicks: X qualified with range 99.5-100. -/
def qualState : BotState := runTicks initState qualTicks

/-- State after the first breakout admission from qualState: the 09:25 tick
at 101 emits a LONG placeTrade and records the qty-0 slot. -/
def postEntryState : BotState := (onTick qualState "X" 101 33900000).1

/-- Ticks giving symbol X an opening range of 2 percent (100 to 102), above
the 1 percent threshold, so the 09:20 evaluation disqualifies it. -/
def disqTicks : List (String × ℚ × ℕ) :=
  [("X", 100, 33300000), ("X", 102, 33360000), ("X", 100, 33420000),
   ("X", 100, 33480000), ("X", 100, 33540000)]

/-- State of the bot after disqTicks (five candles, not yet evaluated). -/
def disqState : BotState := runTicks initState disqTicks

/-- Candle list with a single wide candle in the 09:15-09:20 opening window
and five flat candles at 09:21-09:25, feeding the second copy's sliding
window at a 09:25 tick. -/
def lateArr : List Candle :=
  [⟨33300000, 100, 200, 50, 100⟩,
   ⟨33660000, 100, 100, 100, 100⟩, ⟨33720000, 100, 100, 100, 100⟩,
   ⟨33780000, 100, 100, 100, 100⟩, ⟨33840000, 100, 100, 100, 100⟩,
   ⟨33900000, 100, 100, 100, 100⟩]

/-- Ticks forming five flat opening candles at price 100: the zero-width
range qualifies with volatility 0. -/
def flatTicks : List (String × ℚ × ℕ) :=
  [("X", 100, 33300000), ("X", 100, 33360000), ("X", 100, 33420000),
   ("X", 100, 33480000), ("X", 100, 33540000), ("X", 100, 33605000)]

/-- State of the bot after flatTicks: X qualified with hi = lo = 100. -/
def flatState : BotState := runTicks initState flatTicks

theorem getOpt_setK {α : Type} (m : List (String × α)) (k k2 : String) (v : α) :
    getOpt (setK m k v) k2 = if k2 = k then some v else getOpt m k2 := by
  induction m with
  | nil =>
    simp only [setK, getOpt]
    by_cases h : k = k2
    · subst h; simp
    · rw [if_neg h, if_neg (fun hh => h hh.symm)]
  | cons e rest ih =>
    simp only [setK]
    by_cases he : e.1 = k
    · subst he
      simp only [if_pos rfl, getOpt]
      by_cases h2 : e.1 = k2
      · subst h2; simp
      · rw [if_neg h2, if_neg (fun hh => h2 hh.symm), if_neg h2]
    · rw [if_neg he]
      simp only [getOpt]
      by_cases h2 : e.1 = k2
      · rw [if_pos h2, if_pos h2, if_neg (fun hh => he (h2.trans hh))]
      · rw [if_neg h2, if_neg h2, ih]

theorem getOpt_setK_self {α : Type} (m : List (String × α)) (k : String) (v : α) :
    getOpt (setK m k v) k = some v := by
  simp [getOpt_setK]

theorem add_slots (pm : PositionManager) (symbol side : String) (qty price : ℚ) :
    (getOpt (pm.add symbol side qty price).positions symbol).getD [] =
      ((getOpt pm.positions symbol).getD []) ++ [⟨side, qty, price, qty⟩] := by
  unfold PositionManager.add
  simp [getOpt_setK_self]

theorem updateCandles_pm (s : BotState) (sym : String) (price : ℚ) (now : ℕ) :
    (updateCandles s sym price now).pm = s.pm := rfl

theorem updateCandles_firstCandle (s : BotState) (sym : String) (price : ℚ) (now : ℕ) :
    (updateCandles s sym price now).firstCandle = s.firstCandle := rfl

theorem updateCandles_qualified (s : BotState) (sym : String) (price : ℚ) (now : ℕ) :
    (updateCandles s sym price now).qualified = s.qualified := rfl

theorem qualifyStep_pm (s : BotState) (sym : String) (now : ℕ) :
    (qualifyStep s sym now).1.pm = s.pm := by
  simp only [qualifyStep]
  repeat' split
  all_goals rfl

theorem qualifyStep_candles (s : BotState) (sym : String) (now : ℕ) :
    (qualifyStep s sym now).1.candles = s.candles := by
  simp only [qualifyStep]
  repeat' split
  all_goals rfl

theorem breakoutStep_candles (s : BotState) (sym : String) (price : ℚ) (now : ℕ) :
    (breakoutStep s sym price now).1.candles = s.candles := by
  simp only [breakoutStep]
  repeat' split
  all_goals rfl

theorem breakoutStep_firstCandle (s : BotState) (sym : String) (price : ℚ) (now : ℕ) :
    (breakoutStep s sym price now).1.firstCandle = s.firstCandle := by
  simp only [breakoutStep]
  repeat' split
  all_goals rfl

theorem breakoutStep_qualified (s : BotState) (sym : String) (price : ℚ) (now : ℕ) :
    (breakoutStep s sym price now).1.qualified = s.qualified := by
  simp only [breakoutStep]
  repeat' split
  all_goals rfl

theorem breakoutStep_slots (s : BotState) (sym : String) (price : ℚ) (now : ℕ) :
    ((getOpt (breakoutStep s sym price now).1.pm.positions sym).getD []).length =
      ((getOpt s.pm.positions sym).getD []).length + ((breakoutStep s sym price now).2).length := by
  simp only [breakoutStep]
  repeat' split
  all_goals simp [add_slots]

theorem breakoutStep_gate (s : BotState) (sym : String) (price : ℚ) (now : ℕ)
    (h : (breakoutStep s sym price now).2 ≠ []) :
    now / 1000 < CONFIG_ENTRY_CUTOFF ∧ sym ∈ s.qualified ∧
      (getOpt s.firstCandle sym).isSome = true := by
  by_cases hg : sym ∈ s.qualified ∧ now / 1000 < CONFIG_ENTRY_CUTOFF
  · refine ⟨hg.2, hg.1, ?_⟩
    rcases hfc : getOpt s.firstCandle sym with _ | r
    · exact absurd (by simp [breakoutStep, hg, hfc]) h
    · simp
  · exact absurd (by simp [breakoutStep, hg]) h

/-- The OHLC bounds invariant for one candle. -/
def candleOk (c : Candle) : Prop :=
  c.l ≤ c.o ∧ c.l ≤ c.c ∧ c.l ≤ c.h ∧ c.o ≤ c.h ∧ c.c ≤ c.h

/-- The bounds invariant over every candle of every per-symbol sequence. -/
def candlesOk (m : List (String × List Candle)) : Prop :=
  ∀ sym c, c ∈ (getOpt m sym).getD [] → candleOk c

theorem candlesOk_updateCandles (s : BotState) (sym : String) (price : ℚ) (now : ℕ)
    (h : candlesOk s.candles) : candlesOk (updateCandles s sym price now).candles := by
  intro sym2 c hc
  simp only [updateCandles] at hc
  rw [getOpt_setK] at hc
  by_cases hs : sym2 = sym
  case neg => rw [if_neg hs] at hc; exact h sym2 c hc
  case pos =>
    rw [if_pos hs, Option.getD_some] at hc
    rcases hl : ((getOpt s.candles sym).getD []).getLast? with _ | prev
    · rw [hl] at hc
      rcases List.mem_append.1 hc with hin | hnew
      · exact h sym c hin
      · rw [List.mem_singleton.1 hnew]
        exact ⟨le_refl _, le_refl _, le_refl _, le_refl _, le_refl _⟩
    · rw [hl] at hc
      dsimp only at hc
      by_cases hts : prev.ts ≠ now / 60000 * 60000
      · rw [if_pos hts] at hc
        rcases List.mem_append.1 hc with hin | hnew
        · exact h sym c hin
        · rw [List.mem_singleton.1 hnew]
          exact ⟨le_refl _, le_refl _, le_refl _, le_refl _, le_refl _⟩
      · rw [if_neg hts] at hc
        rcases List.mem_append.1 hc with hin | hnew
        · exact h sym c (List.dropLast_subset _ hin)
        · rw [List.mem_singleton.1 hnew]
          have old := h sym prev (List.mem_of_getLast?_eq_some hl)
          refine ⟨le_trans (min_le_left _ _) old.1, min_le_right _ _,
            le_trans (le_trans (min_le_left _ _) old.2.2.1) (le_max_left _ _),
            le_trans old.2.2.2.1 (le_max_left _ _), le_max_right _ _⟩

theorem candlesOk_onTick (s : BotState) (sym : String) (price : ℚ) (now : ℕ)
    (h : candlesOk s.candles) : candlesOk (onTick s sym price now).1.candles := by
  have h1 := candlesOk_updateCandles s sym price now h
  simp only [onTick]
  rw [breakoutStep_candles, qualifyStep_candles]
  exact h1

theorem candlesOk_runTicks (ticks : List (String × ℚ × ℕ)) (s : BotState)
    (h : candlesOk s.candles) : candlesOk (runTicks s ticks).candles := by
  induction ticks generalizing s with
  | nil => exact h
  | cons t rest ih => exact ih _ (candlesOk_onTick s t.1 t.2.1 t.2.2 h)

unseal Rat.add Rat.sub Rat.mul Rat.inv in
/-- C1: the claim says that after recordEntry has run maxPerSide times for a
(symbol, side) with no intervening close, canEnter returns false, blocking
duplicates. The code refutes this: the admission calls are
pm.add(sym, side, 0, price) (bot.js:340/345) with quantity 0, while canEnter
(bot.js:22) counts only slots with openQty > 0, so the recorded slot never
counts against the cap: after the admission, canEnter is still true, and an
immediately following tick above the range high emits a second, duplicate
placeTrade for the same (symbol, side). -/
theorem C1_admission_control_ineffective :
    ((PositionManager.mk [] 1).add "X" "LONG" 0 100).canEnter "X" "LONG" = true ∧
    (onTick qualState "X" 101 33900000).2.1 = [⟨"X", "LONG", 100, 199/2⟩] ∧
    (onTick postEntryState "X" 101 33960000).2.1 = [⟨"X", "LONG", 100, 199/2⟩] := by
  decide

unseal Rat.add Rat.sub Rat.mul Rat.inv in
/-- C2 counterexample: after a disqualifying evaluation (opening range 2
percent at the 09:20:05 tick) the verdict is not stored (firstCandle stays
empty) and the next tick evaluates - and logs - the disqualification again,
refuting that either terminal verdict is stored permanently and never
re-evaluated. -/
theorem C2_counterexample :
    (onTick disqState "X" 100 33605000).2.2 = some false ∧
    getOpt (onTick disqState "X" 100 33605000).1.firstCandle "X" = none ∧
    (onTick (onTick disqState "X" 100 33605000).1 "X" 100 33660000).2.2 = some false := by
  decide

/-- C2 (amended): only a QUALIFIED verdict is stored and makes every later
qualifier invocation for that symbol a no-op (the stored range never
changes); a disqualifying evaluation leaves the state unchanged - nothing
is stored, so the qualifier re-evaluates on subsequent ticks. -/
theorem C2_qualified_permanent :
    (∀ (s : BotState) (sym : String) (now : ℕ) (r : Range),
        getOpt s.firstCandle sym = some r → qualifyStep s sym now = (s, none)) ∧
    (∀ (s : BotState) (sym : String) (now : ℕ),
        (qualifyStep s sym now).2 = some false → (qualifyStep s sym now).1 = s) := by
  constructor
  · intro s sym now r h
    simp [qualifyStep, h]
  · intro s sym now
    simp only [qualifyStep]
    split
    · split
      · split
        · intro h; simp at h
        · intro _; rfl
      · intro h; simp at h
    · intro h; simp at h

unseal Rat.add Rat.sub Rat.mul Rat.inv in
theorem C2_witness : qualifyStep qualState "X" 33900000 = (qualState, none) :=
  C2_qualified_permanent.1 qualState "X" 33900000 ⟨100, 199/2, 1/2⟩ (by decide)

unseal Rat.add Rat.sub Rat.mul Rat.inv in
/-- C3 counterexample: the second engine copy (bot.js:750-752) does not
select the fixed window. With one wide candle in the 09:15-09:20 opening
window and five flat candles at 09:21-09:25, a 09:25:30 invocation
qualifies the symbol from the sliding five-bucket window ending at the
current tick's bucket, even though the fixed opening window holds exactly
one candle, where the claim says no verdict may be produced. -/
theorem C3_counterexample :
    qualifyStepCopy2 lateArr none 33930000 = some ⟨100, 100⟩ ∧
    (lateArr.filter
      (fun c => decide (marketOpenTs ≤ c.ts) && decide (c.ts < firstCandleEndTs))).length = 1 := by
  decide

/-- C3 (amended): in the first engine copy an evaluation happens exactly
when the symbol is unevaluated, the time guard has passed, and exactly five
candles have bucket-start in the fixed half-open window
[marketOpenTs, firstCandleEndTs); with any other count no verdict is
produced and the state is unchanged, so the check retries on later ticks.
The second copy instead selects the candles of the sliding five-bucket
window [ts - 4 * 60000, ts] anchored at the current tick's bucket. -/
theorem C3_window_and_cardinality :
    (∀ (s : BotState) (sym : String) (now : ℕ),
        (qualifyStep s sym now).2.isSome = true ↔
          getOpt s.firstCandle sym = none ∧ CONFIG_FIRST_CANDLE_END ≤ now / 1000 ∧
            (((getOpt s.candles sym).getD []).filter
              (fun c => decide (marketOpenTs ≤ c.ts) && decide (c.ts < firstCandleEndTs))).length = 5) ∧
    (∀ (s : BotState) (sym : String) (now : ℕ),
        (qualifyStep s sym now).2 = none → (qualifyStep s sym now).1 = s) ∧
    (∀ (arr : List Candle) (ts : ℕ),
        first5Copy2 arr ts = arr.filter
          (fun c => decide ((ts : ℤ) - 4 * 60000 ≤ (c.ts : ℤ)) && decide ((c.ts : ℤ) ≤ (ts : ℤ)))) := by
  refine ⟨?_, ?_, ?_⟩
  · intro s sym now
    simp only [qualifyStep]
    split
    case isTrue hg =>
      split
      case isTrue h5 =>
        refine iff_of_true ?_ ⟨hg.1, hg.2, h5⟩
        split <;> rfl
      case isFalse h5 =>
        exact iff_of_false (by simp) (fun hcon => h5 hcon.2.2)
    case isFalse hg =>
      exact iff_of_false (by simp) (fun hcon => hg ⟨hcon.1, hcon.2.1⟩)
  · intro s sym now
    simp only [qualifyStep]
    split
    · split
      · split
        · intro h; simp at h
        · intro h; simp at h
      · intro _; rfl
    · intro _; rfl
  · intro arr ts
    unfold first5Copy2
    apply List.filter_congr
    intro c _
    rw [Bool.and_comm]
    congr 1
    exact decide_eq_decide.mpr Int.lt_add_one_iff

theorem C3_witness : (qualifyStep initState "X" 0).1 = initState :=
  C3_window_and_cardinality.2.1 initState "X" 0 (by decide)

unseal Rat.add Rat.sub Rat.mul Rat.inv in
/-- C4 counterexample: for the claim's short example (entry = 100,
stop = 98, Short, riskPerTrade = 50) the code's bracket formula
entry - (sl - entry) (bot.js:412) yields target 102, not the claimed 96;
the quantity 25 does match. -/
theorem C4_counterexample :
    tgtOf "SHORT" 100 98 = 102 ∧ ¬ tgtOf "SHORT" 100 98 = 96 ∧
    qtyOf 50 100 98 = some 25 := by
  decide

unseal Rat.add Rat.sub Rat.mul Rat.inv in
/-- C4 (amended): the order-intent computation satisfies
quantity = max(1, floor(risk / |entry - stop|)) and the 1:1 bracket target
(Long: entry + (entry - stop); Short: entry - (stop - entry)); the Long
example (entry 100, stop 95, risk 100) gives quantity 20 and target 105,
and the Short example consistent with a stop above the entry is entry 98,
stop 100, risk 50, giving quantity 25 and target 96. -/
theorem C4_order_intent :
    (∀ (risk entry sl : ℚ), ¬ entry = sl →
        qtyOf risk entry sl = some (max 1 ⌊risk / |entry - sl|⌋)) ∧
    (∀ (entry sl : ℚ),
        tgtOf "LONG" entry sl = entry + (entry - sl) ∧
        tgtOf "SHORT" entry sl = entry - (sl - entry)) ∧
    qtyOf 100 100 95 = some 20 ∧ tgtOf "LONG" 100 95 = 105 ∧
    qtyOf 50 98 100 = some 25 ∧ tgtOf "SHORT" 98 100 = 96 := by
  refine ⟨?_, ?_, by decide, by decide, by decide, by decide⟩
  · intro risk entry sl h
    simp [qtyOf, h]
  · intro entry sl
    exact ⟨by simp [tgtOf], by simp [tgtOf]⟩

unseal Rat.add Rat.sub Rat.mul Rat.inv in
theorem C4_witness : qtyOf 100 100 95 = some (max 1 ⌊(100 : ℚ) / |100 - 95|⌋) :=
  C4_order_intent.1 100 100 95 (by norm_num)

unseal Rat.add Rat.sub Rat.mul Rat.inv in
/-- C5 counterexample: after the breakout admission from qualState the
recorded slot for X is the qty-0 entry, and a rejected entry leg (whose
branch, bot.js:435-437, only logs) leaves it in place - the position state
is NOT restored to the pre-admission state, which had no entry for X. -/
theorem C5_counterexample :
    (getOpt (placeTradeRejected postEntryState).pm.positions "X").getD [] =
      [⟨"LONG", 0, 100, 0⟩] ∧
    (getOpt qualState.pm.positions "X").getD [] = [] := by
  decide

/-- C5 (amended): an entry-leg rejection releases nothing - the rejection
branch of placeTrade leaves the bot state exactly as it was after the
admission, and every admission of this tick leaves exactly one recorded
slot for the symbol that persists through the rejection. -/
theorem C5_no_release : ∀ (s : BotState) (sym : String) (price : ℚ) (now : ℕ),
    placeTradeRejected (onTick s sym price now).1 = (onTick s sym price now).1 ∧
    ((getOpt (onTick s sym price now).1.pm.positions sym).getD []).length =
      ((getOpt s.pm.positions sym).getD []).length + ((onTick s sym price now).2.1).length := by
  intro s sym price now
  refine ⟨rfl, ?_⟩
  simp only [onTick]
  rw [breakoutStep_slots, qualifyStep_pm, updateCandles_pm]

/-- C6 counterexample: a tick for a known token whose price field parses to
NaN is not dropped - the candle map changes (a NaN candle is appended),
refuting that malformed-price ticks leave all state unchanged. -/
theorem C6_counterexample :
    ingestTick [("X", 7)] [] 7 none 33300000 ≠ [] := by
  decide

/-- C6 (amended): only the unknown-token guard drops a tick - when
tokenToSymbol finds no symbol the candle state is returned unchanged; there
is no price-validity check, so a known-token tick whose parsed price is NaN
is processed and creates a candle whose fields are all NaN. -/
theorem C6_unknown_token_only :
    (∀ (tokens : List (String × ℕ)) (candles : List (String × List JSCandle))
        (tk : ℕ) (lp : Option ℚ) (now : ℕ),
        tokenToSymbol tokens tk = none → ingestTick tokens candles tk lp now = candles) ∧
    ingestTick [("X", 7)] [] 7 none 33300000 =
      [("X", [⟨33300000, none, none, none, none⟩])] := by
  refine ⟨?_, by decide⟩
  intro tokens candles tk lp now h
  simp [ingestTick, h]

theorem C6_witness : ingestTick [] [] 3 (some 5) 0 = [] :=
  C6_unknown_token_only.1 [] [] 3 (some 5) 0 rfl

/-- C7: a breakout placeTrade is emitted only when hhmmss() is strictly
before ENTRY_CUTOFF and only for a symbol that is in the qualified set and
has a stored opening range; at or after the cutoff, or for a symbol without
a stored qualified range, no trade is ever emitted. -/
theorem C7_breakout_gating : ∀ (s : BotState) (sym : String) (price : ℚ) (now : ℕ),
    (onTick s sym price now).2.1 ≠ [] →
      now / 1000 < CONFIG_ENTRY_CUTOFF ∧
      sym ∈ (onTick s sym price now).1.qualified ∧
      (getOpt (onTick s sym price now).1.firstCandle sym).isSome = true := by
  intro s sym price now h
  simp only [onTick] at h ⊢
  have hg := breakoutStep_gate _ sym price now h
  refine ⟨hg.1, ?_, ?_⟩
  · rw [breakoutStep_qualified]
    exact hg.2.1
  · rw [breakoutStep_firstCandle]
    exact hg.2.2

unseal Rat.add Rat.sub Rat.mul Rat.inv in
theorem C7_witness :
    (onTick qualState "X" 101 33900000).2.1 ≠ [] ∧
      (33900000 / 1000 < CONFIG_ENTRY_CUTOFF ∧
       "X" ∈ (onTick qualState "X" 101 33900000).1.qualified ∧
       (getOpt (onTick qualState "X" 101 33900000).1.firstCandle "X").isSome = true) :=
  ⟨by decide, C7_breakout_gating qualState "X" 101 33900000 (by decide)⟩

/-- C8: after any sequence of ticks from the initial state, every candle of
every per-symbol sequence satisfies the OHLC bounds: high is at least open,
close and low, and low is at most open, close and high, whatever the order
of tick arrival within a bucket. -/
theorem C8_candle_bounds : ∀ (ticks : List (String × ℚ × ℕ)) (sym : String) (c : Candle),
    c ∈ (getOpt (runTicks initState ticks).candles sym).getD [] →
      c.h ≥ c.o ∧ c.h ≥ c.c ∧ c.h ≥ c.l ∧ c.l ≤ c.o ∧ c.l ≤ c.c ∧ c.l ≤ c.h := by
  intro ticks sym c hc
  have h0 : candlesOk initState.candles := by
    intro sym2 c2 hc2
    simp [initState, getOpt] at hc2
  have hok := candlesOk_runTicks ticks initState h0 sym c hc
  exact ⟨hok.2.2.2.1, hok.2.2.2.2, hok.2.2.1, hok.1, hok.2.1, hok.2.2.1⟩

theorem C8_witness :
    (⟨33300000, 5, 5, 5, 5⟩ : Candle) ∈
      (getOpt (runTicks initState [("X", 5, 33300000)]).candles "X").getD [] ∧
      ((5 : ℚ) ≥ 5 ∧ (5 : ℚ) ≥ 5 ∧ (5 : ℚ) ≥ 5 ∧ (5 : ℚ) ≤ 5 ∧ (5 : ℚ) ≤ 5 ∧ (5 : ℚ) ≤ 5) :=
  ⟨by decide, C8_candle_bounds [("X", 5, 33300000)] "X" ⟨33300000, 5, 5, 5, 5⟩ (by decide)⟩

/-- C9: the squareOff loop submits exactly one flattening market order per
returned entry with non-zero net quantity - on the sell side 'S' when the
net quantity is positive, the buy side 'B' when negative, with quantity the
absolute net quantity - and submits nothing for zero-quantity entries. -/
theorem C9_squareoff_flattening : ∀ (ps : List BrokerPosition),
    squareOffOrders ps = (ps.filter (fun p => decide (¬ p.netqty = 0))).map
      (fun p => ⟨if 0 < p.netqty then "S" else "B", p.netqty.natAbs, p.exch, p.tsym⟩) ∧
    (squareOffOrders ps).length = (ps.filter (fun p => decide (¬ p.netqty = 0))).length := by
  have key : ∀ ps : List BrokerPosition,
      squareOffOrders ps = (ps.filter (fun p => decide (¬ p.netqty = 0))).map
        (fun p => ⟨if 0 < p.netqty then "S" else "B", p.netqty.natAbs, p.exch, p.tsym⟩) := by
    intro ps
    induction ps with
    | nil => rfl
    | cons p rest ih =>
      by_cases h : p.netqty = 0 <;> simp [squareOffOrders, h, ih]
  intro ps
  exact ⟨key ps, by rw [key ps, List.length_map]⟩

unseal Rat.add Rat.sub Rat.mul Rat.inv in
/-- C10 counterexample: five flat opening candles at price 100 give a
zero-width range that QUALIFIES (volatility 0 is below the threshold), and
a later breakout tick at 101 emits a trade whose entry equals its stop, so
the quantity computation divides by zero and the JS result is Infinity
(modelled none) - not a finite positive integer. -/
theorem C10_counterexample :
    getOpt flatState.firstCandle "X" = some ⟨100, 100, 0⟩ ∧
    (onTick flatState "X" 101 33900000).2.1 = [⟨"X", "LONG", 100, 100⟩] ∧
    qtyOf 100 100 100 = none := by
  decide

/-- C10 (amended): whenever the emitted entry price differs from the stop
price, the quantity max(1, floor(risk / |entry - stop|)) is a finite
integer at least 1; a zero-width qualified range, which the code admits,
is exactly the case where this fails. -/
theorem C10_qty_positive : ∀ (risk entry sl : ℚ), ¬ entry = sl →
    ∃ q : ℤ, qtyOf risk entry sl = some q ∧ 1 ≤ q := by
  intro risk entry sl h
  exact ⟨max 1 ⌊risk / |entry - sl|⌋, by simp [qtyOf, h], le_max_left _ _⟩

theorem C10_witness : ∃ q : ℤ, qtyOf 100 100 95 = some q ∧ 1 ≤ q :=
  C10_qty_positive 100 100 95 (by norm_num)
